import Mathlib

/-!
Shallow Lean embedding of the agent-orchestration core of the
`dailyadassist` repository (Python), together with theorems settling the
frozen claims about it.

Conventions of the embedding:
* Python strings are Lean `String`s; `len` is `String.length` (both count
  code points).  Case mapping (`str.lower`, `str.isupper`, `str.title`)
  is modelled on its ASCII fragment, which is the fragment the ad-copy
  checks exercise.
* Python floats (budgets) are modelled as exact integers `Int` (every
  budget the checks compare against or format is integral).
* Python dicts that carry heterogeneous data (context bundles, performance
  snapshots) are modelled by the inductive `PyVal` / association lists.
* Database queries and external collaborators (Facebook API, LLM) are
  modelled by explicit environment records passed to the embedded
  functions; writes are explicit state passing.
-/

namespace DailyAd

/-! ## Basic Python string helpers (ASCII model) -/

/-- ASCII model of Python `str.lower` on a single character. -/
def asciiLower (c : Char) : Char :=
  if 65 ≤ c.toNat ∧ c.toNat ≤ 90 then Char.ofNat (c.toNat + 32) else c

/-- ASCII model of Python `str.upper` test on a single character. -/
def isAsciiUpper (c : Char) : Bool :=
  65 ≤ c.toNat && c.toNat ≤ 90

/-- ASCII cased letter (model of a Unicode "cased" character). -/
def isAsciiAlpha (c : Char) : Bool :=
  (65 ≤ c.toNat && c.toNat ≤ 90) || (97 ≤ c.toNat && c.toNat ≤ 122)

/-- Model of Python `str.lower`. -/
def strLower (s : String) : String :=
  ⟨s.data.map asciiLower⟩

/-- `listStartsWith needle hay`: `needle` is a prefix of `hay`. -/
def listStartsWith : List Char → List Char → Bool
  | [], _ => true
  | _ :: _, [] => false
  | a :: as, b :: bs => a == b && listStartsWith as bs

/-- Contiguous-sublist test on character lists. -/
def listContains (needle : List Char) : List Char → Bool
  | [] => needle.isEmpty
  | c :: cs => listStartsWith needle (c :: cs) || listContains needle cs

/-- Model of Python `needle in hay` for strings (contiguous substring). -/
def strContains (hay needle : String) : Bool :=
  listContains needle.data hay.data

/-- Model of Python `str.split()` (split on whitespace runs, drop empties). -/
def pyWords (s : String) : List (List Char) :=
  (s.data.splitOnP (fun c => c.isWhitespace)).filter (fun w => !w.isEmpty)

/-- ASCII model of Python `str.isupper`: at least one cased character and
every cased character uppercase. -/
def pyIsUpper (w : List Char) : Bool :=
  w.any isAsciiAlpha && w.all (fun c => !isAsciiAlpha c || isAsciiUpper c)

/-- ASCII model of Python `str.title` (used on the fixed field names):
uppercase a letter that does not follow a letter, lowercase the rest. -/
def pyTitleAux : Bool → List Char → List Char
  | _, [] => []
  | prevAlpha, c :: cs =>
    (if isAsciiAlpha c then
       (if prevAlpha then asciiLower c
        else Char.ofNat (if 97 ≤ c.toNat ∧ c.toNat ≤ 122 then c.toNat - 32 else c.toNat))
     else c) :: pyTitleAux (isAsciiAlpha c) cs

/-- Model of Python `str.title`. -/
def pyTitle (s : String) : String :=
  ⟨pyTitleAux false s.data⟩

/-- Model of `field.replace('_', ' ')` (single-character pattern). -/
def replaceUnderscores (s : String) : String :=
  ⟨s.data.map (fun c => if c == '_' then ' ' else c)⟩

/-! ## Data model: ad drafts (the dict handed to `QASafetyAgent.validate_ad`)

`target_audience = none` models the falsy default `{}` of
`draft.get('target_audience', {})`; inside a present audience dict the
structure defaults mirror the `audience.get(key, default)` calls. -/

/-- The `target_audience` sub-dict of a draft. -/
structure Audience where
  interests : List String := []
  age_min : Int := 18
  age_max : Int := 65
  countries : List String := []
deriving Repr, DecidableEq

/-- An ad draft as consumed by the QA/Safety agent
(`draft.get(field, default)` is modelled by the field defaults). -/
structure Draft where
  primary_text : String := ""
  headline : String := ""
  description : String := ""
  budget : Int := 0
  target_audience : Option Audience := none
deriving Repr, DecidableEq

/-- The dict returned by `QASafetyAgent.validate_ad`. -/
structure ValidationResult where
  is_valid : Bool
  issues : List String
  warnings : List String
  can_publish : Bool
  requires_confirmation : Bool
deriving Repr, DecidableEq

/-- `QASafetyAgent`: the only state `validate_ad` reads is
`self.default_budget` (`preferences.default_daily_budget if preferences
else 50`). -/
structure QASafetyAgent where
  default_budget : Int := 50
deriving Repr, DecidableEq

/-- `QASafetyAgent.PROHIBITED_WORDS`. -/
def PROHIBITED_WORDS : List String :=
  ["cure", "miracle", "guaranteed", "risk-free", "no risk",
   "get rich", "make money fast", "weight loss guarantee"]

/-- `QASafetyAgent.SENSITIVE_WORDS`. -/
def SENSITIVE_WORDS : List String :=
  ["diet", "weight", "body", "skin", "age", "beauty",
   "health", "medicine", "treatment", "doctor"]

/-- `QASafetyAgent.CHAR_LIMITS`. -/
def CHAR_LIMITS : List (String × Nat) :=
  [("primary_text", 300), ("headline", 40), ("description", 90)]

/-- `draft.get(field, '')` for the three text fields. -/
def draftGet (d : Draft) (field : String) : String :=
  if field = "primary_text" then d.primary_text
  else if field = "headline" then d.headline
  else if field = "description" then d.description
  else ""

/-- The issue message built by `_check_character_limits`. -/
def charLimitMsg (field : String) (len limit : Nat) : String :=
  pyTitle (replaceUnderscores field) ++ " exceeds limit (" ++
    toString len ++ "/" ++ toString limit ++ " characters)"

/-- `QASafetyAgent._check_character_limits`. -/
def check_character_limits (d : Draft) : List String :=
  ["primary_text", "headline", "description"].flatMap (fun field =>
    let content := draftGet d field
    let limit := ((CHAR_LIMITS.lookup field).getD 300)
    if content.length > limit then [charLimitMsg field content.length limit]
    else [])

/-- `' '.join([primary_text, headline, description]).lower()`. -/
def allTextOf (d : Draft) : String :=
  strLower (d.primary_text ++ " " ++ d.headline ++ " " ++ d.description)

/-- Violation message of the prohibited-word scan. -/
def violationMsg (w : String) : String :=
  "Potential policy violation: '" ++ w ++ "' may not be allowed in ads"

/-- Warning message of the sensitive-word scan. -/
def sensitiveMsg (w : String) : String :=
  "Sensitive content detected: '" ++ w ++ "' may require additional review"

/-- The emoji ranges of the compiled regex in `_check_policy_violations`. -/
def isEmojiChar (c : Char) : Bool :=
  (0x1F600 ≤ c.toNat && c.toNat ≤ 0x1F64F) ||
  (0x1F300 ≤ c.toNat && c.toNat ≤ 0x1F5FF) ||
  (0x1F680 ≤ c.toNat && c.toNat ≤ 0x1F6FF) ||
  (0x1F1E0 ≤ c.toNat && c.toNat ≤ 0x1F1FF)

/-- Result pair of `_check_policy_violations`. -/
structure PolicyScan where
  violations : List String
  warnings : List String
deriving Repr, DecidableEq

/-- `QASafetyAgent._check_policy_violations`.  Note that `all_text` is
lowercased before every check, including the `isupper()` scan. -/
def check_policy_violations (d : Draft) : PolicyScan :=
  let all_text := allTextOf d
  let violations := PROHIBITED_WORDS.flatMap (fun w =>
    if strContains all_text (strLower w) then [violationMsg w] else [])
  let warnings := SENSITIVE_WORDS.flatMap (fun w =>
    if strContains all_text (strLower w) then [sensitiveMsg w] else [])
  let warnings := warnings ++
    (if all_text.data.count '!' > 3 then
      ["Excessive exclamation marks may reduce ad quality"] else [])
  let caps_words := (pyWords all_text).filter
    (fun w => pyIsUpper w && w.length > 2)
  let warnings := warnings ++
    (if caps_words.length > 3 then
      ["Excessive capitalization may violate ad policies"] else [])
  let warnings := warnings ++
    (if all_text.data.any isEmojiChar then
      ["Contains emojis - ensure they're appropriate for your audience"] else [])
  ⟨violations, warnings⟩

/-- The "significantly higher" budget warning. -/
def budgetSigMsg (budget default_budget : Int) : String :=
  "Budget ($" ++ toString budget ++ ") is significantly higher than your usual ($" ++
    toString default_budget ++ "). Are you sure?"

/-- The milder budget warning. -/
def budgetMildMsg (budget : Int) : String :=
  "Budget ($" ++ toString budget ++ ") is higher than your typical daily budget"

/-- `QASafetyAgent._check_budget`. -/
def check_budget (default_budget : Int) (d : Draft) : List String :=
  let budget := d.budget
  if budget ≤ 0 then ["No budget specified - using default"]
  else if budget > default_budget * 5 then [budgetSigMsg budget default_budget]
  else if budget > default_budget * 2 then [budgetMildMsg budget]
  else []

/-- `QASafetyAgent._check_targeting`. -/
def check_targeting (d : Draft) : List String :=
  match d.target_audience with
  | none => ["No targeting specified - ad will use broad targeting"]
  | some audience =>
    (if audience.interests.length > 10 then
       ["Many interests selected - this may limit reach"] else []) ++
    (if audience.age_max - audience.age_min < 10 then
       ["Very narrow age range may limit reach"] else []) ++
    (if audience.countries.isEmpty then
       ["No geographic targeting - consider specifying regions"] else [])

/-- `QASafetyAgent.validate_ad`. -/
def validate_ad (agent : QASafetyAgent) (draft : Draft) : ValidationResult :=
  let issues := check_character_limits draft
  let policy := check_policy_violations draft
  let issues := issues ++ policy.violations
  let warnings := policy.warnings
  let warnings := warnings ++ check_budget agent.default_budget draft
  let warnings := warnings ++ check_targeting draft
  { is_valid := issues.isEmpty
    issues := issues
    warnings := warnings
    can_publish := issues.isEmpty
    requires_confirmation := !warnings.isEmpty }

/-- State-passing rendering of `validate_ad`: each check receives the draft
object and hands it on; the second component is the draft as it stands
after the call (the source never assigns into `draft`). -/
def validate_ad_run (agent : QASafetyAgent) (draft : Draft) :
    ValidationResult × Draft :=
  let (char_issues, draft) := (check_character_limits draft, draft)
  let (policy, draft) := (check_policy_violations draft, draft)
  let (budget_warnings, draft) := (check_budget agent.default_budget draft, draft)
  let (targeting_warnings, draft) := (check_targeting draft, draft)
  let issues := char_issues ++ policy.violations
  let warnings := policy.warnings ++ budget_warnings ++ targeting_warnings
  ({ is_valid := issues.isEmpty
     issues := issues
     warnings := warnings
     can_publish := issues.isEmpty
     requires_confirmation := !warnings.isEmpty }, draft)

/-! ## Concrete drafts used by the scenarios -/

/-- Scenario A draft: 310-character primary text, headline "ok", budget 50. -/
def scenarioA : Draft :=
  { primary_text := ⟨List.replicate 310 'a'⟩, headline := "ok", budget := 50 }

/-- Scenario B draft: valid text, headline "ok", budget 500. -/
def scenarioB : Draft :=
  { primary_text := "valid text", headline := "ok", budget := 500 }

/-- A draft whose combined text has five all-caps words of length > 2. -/
def draftCaps : Draft :=
  { primary_text := "BUY NOW BEST DEAL OFFER", headline := "ok", budget := 50 }

/-- A draft whose combined text has four exclamation marks. -/
def draftBangs : Draft :=
  { primary_text := "Big sale!!!! Today", headline := "ok", budget := 50 }

/-- A draft containing the sensitive word `age` only inside `PACKAGE`. -/
def draftPackage : Draft :=
  { primary_text := "Best PACKAGE deal", headline := "ok", budget := 50 }

/-- The number of all-caps words (length > 2) in the combined draft text,
written from the spec's words: counted on the text as the user wrote it,
before any lowercasing. -/
def spec_all_caps_count (d : Draft) : Nat :=
  ((pyWords (d.primary_text ++ " " ++ d.headline ++ " " ++ d.description)).filter
    (fun w => pyIsUpper w && w.length > 2)).length

/-! ## Helper lemmas -/

theorem strData_append (a b : String) : (a ++ b).data = a.data ++ b.data := rfl

/-- The first two characters of a message, used to tell the message
families apart. -/
def msgTag (s : String) : List Char := s.data.take 2

theorem msgTag_charLimit_pt (n l : Nat) :
    msgTag (charLimitMsg "primary_text" n l) = ['P', 'r'] := rfl

theorem msgTag_charLimit_hl (n l : Nat) :
    msgTag (charLimitMsg "headline" n l) = ['H', 'e'] := rfl

theorem msgTag_charLimit_ds (n l : Nat) :
    msgTag (charLimitMsg "description" n l) = ['D', 'e'] := rfl

theorem msgTag_violation (w : String) : msgTag (violationMsg w) = ['P', 'o'] := rfl

theorem msgTag_sensitive (w : String) : msgTag (sensitiveMsg w) = ['S', 'e'] := rfl

/-- Every hard issue produced by `validate_ad` is a character-limit issue or
a prohibited-word violation, so it starts with one of four two-letter tags. -/
theorem msgTag_of_mem_issues (a : QASafetyAgent) (d : Draft) (m : String)
    (hm : m ∈ (validate_ad a d).issues) :
    msgTag m = ['P', 'r'] ∨ msgTag m = ['H', 'e'] ∨ msgTag m = ['D', 'e'] ∨
      msgTag m = ['P', 'o'] := by
  have hsplit : m ∈ check_character_limits d ∨
      m ∈ (check_policy_violations d).violations := by
    simpa [validate_ad] using hm
  rcases hsplit with h | h
  · simp only [check_character_limits, List.flatMap_cons, List.flatMap_nil,
      List.append_nil, List.mem_append, draftGet] at h
    rcases h with h | h | h <;> (split at h <;> simp_all) <;>
      simp [msgTag_charLimit_pt, msgTag_charLimit_hl, msgTag_charLimit_ds]
  · simp only [check_policy_violations, List.mem_flatMap] at h
    obtain ⟨w, -, hw⟩ := h
    split at hw <;> simp_all [msgTag_violation]

/-- The issues list never depends on the budget field. -/
theorem issues_budget_independent (a : QASafetyAgent) (d : Draft) (b : Int) :
    (validate_ad a { d with budget := b }).issues = (validate_ad a d).issues := rfl

theorem limit_pt : ((CHAR_LIMITS.lookup "primary_text").getD 300) = 300 := rfl

theorem limit_hl : ((CHAR_LIMITS.lookup "headline").getD 300) = 40 := rfl

theorem limit_ds : ((CHAR_LIMITS.lookup "description").getD 300) = 90 := rfl

/-- A character-limit overflow always contributes an issue. -/
theorem check_character_limits_ne_nil (d : Draft)
    (h : d.primary_text.length > 300 ∨ d.headline.length > 40 ∨
      d.description.length > 90) :
    check_character_limits d ≠ [] := by
  simp only [check_character_limits, List.flatMap_cons, List.flatMap_nil,
    List.append_nil, draftGet, limit_pt, limit_hl, limit_ds]
  rcases h with h | h | h <;>
    simp [h, List.append_eq_nil]

/-- `can_publish` is the emptiness of the issues list. -/
theorem can_publish_eq (a : QASafetyAgent) (d : Draft) :
    (validate_ad a d).can_publish = (validate_ad a d).issues.isEmpty := rfl

/-- `requires_confirmation` is the non-emptiness of the warnings list. -/
theorem requires_confirmation_eq (a : QASafetyAgent) (d : Draft) :
    (validate_ad a d).requires_confirmation =
      !(validate_ad a d).warnings.isEmpty := rfl

/-- How `validate_ad` assembles its issues list. -/
theorem issues_eq (a : QASafetyAgent) (d : Draft) :
    (validate_ad a d).issues =
      check_character_limits d ++ (check_policy_violations d).violations := rfl

/-- How `validate_ad` assembles its warnings list. -/
theorem warnings_eq (a : QASafetyAgent) (d : Draft) :
    (validate_ad a d).warnings =
      (check_policy_violations d).warnings ++
        check_budget a.default_budget d ++ check_targeting d := rfl

/-! ## Claim theorems: the Safety Gate -/

set_option maxRecDepth 8000

/-- C2: for every draft in which `primary_text`, `headline` or `description`
exceeds its character limit (300, 40, 90), `validate_ad` returns a non-empty
`issues` list and `can_publish = false`; and on the Scenario A draft
(310-character primary text, headline "ok", budget 50) the issues list is
exactly `["Primary Text exceeds limit (310/300 characters)"]`. -/
theorem C2_character_limit_issues :
    (∀ (a : QASafetyAgent) (d : Draft),
        d.primary_text.length > 300 ∨ d.headline.length > 40 ∨
          d.description.length > 90 →
        (validate_ad a d).issues ≠ [] ∧ (validate_ad a d).can_publish = false)
  ∧ (validate_ad {} scenarioA).issues =
      ["Primary Text exceeds limit (310/300 characters)"]
  ∧ (validate_ad {} scenarioA).can_publish = false := by
  refine ⟨?_, by decide, by decide⟩
  intro a d h
  have hne := check_character_limits_ne_nil d h
  have hiss : (validate_ad a d).issues ≠ [] := by
    simp only [validate_ad]
    intro hcontra
    exact hne (List.append_eq_nil.mp hcontra).1
  refine ⟨hiss, ?_⟩
  rw [can_publish_eq]
  cases hI : (validate_ad a d).issues with
  | nil => exact absurd hI hiss
  | cons x xs => rfl

/-- Witness for C2 at the Scenario A draft. -/
theorem C2_character_limit_issues_witness :
    (validate_ad {} scenarioA).issues ≠ [] ∧
      (validate_ad {} scenarioA).can_publish = false :=
  C2_character_limit_issues.1 {} scenarioA (Or.inl (by decide))

/-- C3: the budget check contributes only warnings (the issues list is
independent of the budget), in three tiers — budget ≤ 0 gives the
"no budget, using default" warning, budget > 5×default gives the
"significantly higher" warning, 2×default < budget ≤ 5×default gives the
milder warning — and on the Scenario B draft (budget 500, default 50)
`validate_ad` returns no issues, `can_publish = true`, the "significantly
higher" warning, and `requires_confirmation = true`. -/
theorem C3_budget_tiers :
    (∀ (a : QASafetyAgent) (d : Draft) (b : Int),
        (validate_ad a { d with budget := b }).issues = (validate_ad a d).issues)
  ∧ (∀ (a : QASafetyAgent) (d : Draft), 0 < a.default_budget →
        (d.budget ≤ 0 →
          check_budget a.default_budget d = ["No budget specified - using default"])
      ∧ (a.default_budget * 5 < d.budget →
          check_budget a.default_budget d = [budgetSigMsg d.budget a.default_budget])
      ∧ (a.default_budget * 2 < d.budget → d.budget ≤ a.default_budget * 5 →
          check_budget a.default_budget d = [budgetMildMsg d.budget]))
  ∧ ((validate_ad {} scenarioB).issues = []
      ∧ (validate_ad {} scenarioB).can_publish = true
      ∧ budgetSigMsg 500 50 ∈ (validate_ad {} scenarioB).warnings
      ∧ (validate_ad {} scenarioB).requires_confirmation = true) := by
  refine ⟨fun a d b => rfl, ?_, by decide, by decide, by decide, by decide⟩
  intro a d hd
  refine ⟨?_, ?_, ?_⟩
  · intro h
    simp only [check_budget]
    rw [if_pos h]
  · intro h
    have h0 : ¬ d.budget ≤ 0 := by nlinarith
    simp only [check_budget]
    rw [if_neg h0, if_pos h]
  · intro h1 h2
    have h0 : ¬ d.budget ≤ 0 := by nlinarith
    have h5 : ¬ d.budget > a.default_budget * 5 := by
      simp only [gt_iff_lt, not_lt]
      exact h2
    simp only [check_budget]
    rw [if_neg h0, if_neg h5, if_pos h1]

/-- Witness for C3 instantiating the three tiers at budgets 0, 300 and 150
against default budget 50. -/
theorem C3_budget_tiers_witness :
    check_budget (50 : Int) { budget := 0 } =
      ["No budget specified - using default"]
  ∧ check_budget (50 : Int) { budget := 300 } = [budgetSigMsg 300 50]
  ∧ check_budget (50 : Int) { budget := 150 } = [budgetMildMsg 150] :=
  ⟨(C3_budget_tiers.2.1 {} { budget := 0 } (by decide)).1 (by decide),
   (C3_budget_tiers.2.1 {} { budget := 300 } (by decide)).2.1 (by decide),
   (C3_budget_tiers.2.1 {} { budget := 150 } (by decide)).2.2
     (by decide) (by decide)⟩

/-- C4 (code bug): the source lowercases the combined text before the
`isupper()` scan, so the all-caps branch never fires on ASCII text.  On a
draft with five all-caps words of length > 2 (counted as the spec
describes, on the raw text) no capitalization warning is produced; the
exclamation-mark half of the check behaves as the claim states. -/
theorem C4_caps_check_dead :
    spec_all_caps_count draftCaps = 5
  ∧ "Excessive capitalization may violate ad policies" ∉
      (validate_ad {} draftCaps).warnings
  ∧ "Excessive exclamation marks may reduce ad quality" ∈
      (validate_ad {} draftBangs).warnings
  ∧ (validate_ad {} draftBangs).requires_confirmation = true := by
  refine ⟨by decide, by decide, by decide, by decide⟩

/-- C5: `validate_ad` is a pure function of the draft: the state-passing
rendering returns the pure value together with the untouched draft, and
running it again on the draft it hands back yields an identical
`ValidationResult`. -/
theorem C5_validate_deterministic :
    ∀ (a : QASafetyAgent) (d : Draft),
      validate_ad_run a d = (validate_ad a d, d) ∧
      (validate_ad_run a ((validate_ad_run a d).2)).1 =
        (validate_ad_run a d).1 :=
  fun _ _ => ⟨rfl, rfl⟩

/-- C10: the sensitive-term scan is a case-insensitive substring match over
the combined text — any sensitive word occurring even as a fragment of a
longer word yields the corresponding warning (never an issue) and hence
`requires_confirmation = true`; in particular "Best PACKAGE deal" triggers
the 'age' warning while producing no issues. -/
theorem C10_sensitive_substring_scan :
    (∀ (a : QASafetyAgent) (d : Draft) (w : String),
        w ∈ SENSITIVE_WORDS → strContains (allTextOf d) (strLower w) = true →
          sensitiveMsg w ∈ (validate_ad a d).warnings ∧
          sensitiveMsg w ∉ (validate_ad a d).issues ∧
          (validate_ad a d).requires_confirmation = true)
  ∧ (strContains (allTextOf draftPackage) "age" = true
      ∧ sensitiveMsg "age" ∈ (validate_ad {} draftPackage).warnings
      ∧ (validate_ad {} draftPackage).issues = []
      ∧ (validate_ad {} draftPackage).requires_confirmation = true) := by
  refine ⟨?_, by decide, by decide, by decide, by decide⟩
  intro a d w hw hc
  have hmem : sensitiveMsg w ∈ (validate_ad a d).warnings := by
    have h1 : sensitiveMsg w ∈ (check_policy_violations d).warnings := by
      simp only [check_policy_violations]
      refine List.mem_append_left _ (List.mem_append_left _
        (List.mem_append_left _ ?_))
      exact List.mem_flatMap.mpr ⟨w, hw, by simp [hc]⟩
    rw [warnings_eq]
    exact List.mem_append_left _ (List.mem_append_left _ h1)
  refine ⟨hmem, ?_, ?_⟩
  · intro hbad
    have htag := msgTag_of_mem_issues a d _ hbad
    rw [msgTag_sensitive] at htag
    rcases htag with h | h | h | h <;> exact absurd h (by decide)
  · rw [requires_confirmation_eq]
    cases hW : (validate_ad a d).warnings with
    | nil => exact absurd hW (List.ne_nil_of_mem hmem)
    | cons x xs => rfl

/-- Witness for C10 at the "Best PACKAGE deal" draft and the word 'age'. -/
theorem C10_sensitive_substring_scan_witness :
    sensitiveMsg "age" ∈ (validate_ad {} draftPackage).warnings ∧
    sensitiveMsg "age" ∉ (validate_ad {} draftPackage).issues ∧
    (validate_ad {} draftPackage).requires_confirmation = true :=
  C10_sensitive_substring_scan.1 {} draftPackage "age" (by decide) (by decide)

/-! ## Conversation state machine (`models/conversation.py`) -/

/-- A conversation row; `set_state` only touches the `state` column. -/
structure Conversation where
  state : String := "idle"
deriving Repr, DecidableEq

/-- `Conversation.VALID_STATES`. -/
def VALID_STATES : List String :=
  ["idle", "discovery", "ideation", "drafting", "review",
   "ready_to_publish", "published"]

/-- `Conversation.set_state`: `raise ValueError` is modelled as
`Except.error`. -/
def set_state (c : Conversation) (new_state : String) :
    Except String Conversation :=
  if new_state ∉ VALID_STATES then
    Except.error ("Invalid state: " ++ new_state)
  else
    Except.ok { c with state := new_state }

/-- C7: `set_state` fails exactly on names outside the seven recognized
states, and for every recognized name it sets the state regardless of the
current state — in particular the idle→published "illegal" transition is
accepted by the state object. -/
theorem C7_set_state_validation :
    ∀ (c : Conversation) (s : String),
      (s ∈ VALID_STATES → set_state c s = Except.ok { c with state := s })
    ∧ (s ∉ VALID_STATES → set_state c s = Except.error ("Invalid state: " ++ s))
    ∧ set_state { state := "idle" } "published" =
        Except.ok { state := "published" } := by
  intro c s
  refine ⟨?_, ?_, rfl⟩
  · intro h
    simp [set_state, h]
  · intro h
    simp [set_state, h]

/-- Witness for C7: a recognized name ("published", from state "idle") and
an unrecognized one ("archived"). -/
theorem C7_set_state_validation_witness :
    set_state { state := "idle" } "published" =
      Except.ok { state := "published" } ∧
    set_state { state := "review" } "archived" =
      Except.error ("Invalid state: " ++ "archived") :=
  ⟨(C7_set_state_validation { state := "idle" } "published").1 (by decide),
   (C7_set_state_validation { state := "review" } "archived").2.1 (by decide)⟩

/-! ## Execution agent, Facebook service and the publish tool
(`agents/execution_agent.py`, `services/facebook_service.py`,
`agents/tools/execution_tools.py`)

External nondeterminism (uuid4 hexes, timestamps, the Ad Platform's
responses) is supplied through an explicit `ExecEnv`; the third component
of `publish_campaign_run`'s result is the trace of underlying
campaign-creation calls the invocation performed. -/

/-- The dict produced by `AdDraft.to_preview_dict`, as read by
`ExecutionAgent.create_campaign`; field defaults mirror the
`draft.get(key, default)` fallbacks of the agent.  `to_preview_dict` has no
`target_audience` key, so the agent's targeting always starts from `{}`. -/
structure PreviewDraft where
  campaign_name : String := "New Campaign"
  ad_set_name : String := "New Ad Set"
  ad_name : String := "New Ad"
  primary_text : String := ""
  headline : String := ""
  description : String := ""
  cta : String := "learn_more"
  budget : Int := 50
  media_url : String := ""
  objective : String := "CONVERSIONS"
deriving Repr, DecidableEq

/-- `ExecutionAgent`: `fb_service` exists iff an access token was given. -/
structure ExecutionAgent where
  has_access_token : Bool := false
  has_ad_account : Bool := false
  facebook_account_id : String := ""
deriving Repr, DecidableEq

/-- External inputs of a campaign-creation call: generated ids and the Ad
Platform's behaviour. -/
structure ExecEnv where
  uuid_campaign : String := ""
  uuid_adset : String := ""
  uuid_ad : String := ""
  uuid_published : String := ""
  ts_id : String := ""
  fb_use_mock : Bool := false
  fb_ok : Bool := true
  fb_campaign_id : String := ""
  fb_adset_id : String := ""
  fb_ad_id : String := ""
  fb_error : String := ""
deriving Repr, DecidableEq

/-- The `campaign_data` dict prepared by `ExecutionAgent.create_campaign`. -/
structure CampaignData where
  name : String
  objective : String
  status : String
deriving Repr, DecidableEq

/-- FB targeting spec prepared by `_prepare_targeting` (the publish path
always reaches it with the empty audience `{}`). -/
structure TargetingSpec where
  countries : List String
  age_min : Option Int := none
  age_max : Option Int := none
  interests : List String := []
deriving Repr, DecidableEq

/-- `ExecutionAgent._prepare_targeting`. -/
def prepare_targeting (audience : Option Audience) : TargetingSpec :=
  match audience with
  | none => { countries := ["US"] }
  | some a =>
    { countries := if a.countries.isEmpty then ["US"] else a.countries
      age_min := some a.age_min
      age_max := some a.age_max
      interests := a.interests }

/-- The `adset_data` dict prepared by `ExecutionAgent.create_campaign`. -/
structure AdsetData where
  name : String
  daily_budget : Int
  billing_event : String
  optimization_goal : String
  targeting : TargetingSpec
  status : String
deriving Repr, DecidableEq

/-- The creative sub-dict of `ad_data`. -/
structure AdCreativeData where
  primary_text : String
  headline : String
  description : String
  cta : String
  image_url : String
deriving Repr, DecidableEq

/-- The `ad_data` dict prepared by `ExecutionAgent.create_campaign`
(it carries no status; the Facebook service sets the ad status itself). -/
structure AdData where
  name : String
  creative : AdCreativeData
deriving Repr, DecidableEq

/-- `ExecutionAgent._map_cta`. -/
def cta_map : List (String × String) :=
  [("learn_more", "LEARN_MORE"), ("shop_now", "SHOP_NOW"),
   ("sign_up", "SIGN_UP"), ("contact_us", "CONTACT_US"),
   ("book_now", "BOOK_NOW"), ("download", "DOWNLOAD"),
   ("get_offer", "GET_OFFER")]

/-- `ExecutionAgent._map_cta`. -/
def map_cta (cta : String) : String :=
  (cta_map.lookup cta).getD "LEARN_MORE"

/-- `campaign_data` as built in `ExecutionAgent.create_campaign`
("Always start paused for safety"). -/
def prepare_campaign_data (draft : PreviewDraft) : CampaignData :=
  { name := draft.campaign_name
    objective := draft.objective
    status := "PAUSED" }

/-- `adset_data` as built in `ExecutionAgent.create_campaign`
(`int(budget * 100)` cents). -/
def prepare_adset_data (draft : PreviewDraft) : AdsetData :=
  { name := draft.ad_set_name
    daily_budget := draft.budget * 100
    billing_event := "IMPRESSIONS"
    optimization_goal := "CONVERSIONS"
    targeting := prepare_targeting none
    status := "PAUSED" }

/-- `ad_data` as built in `ExecutionAgent.create_campaign`. -/
def prepare_ad_data (draft : PreviewDraft) : AdData :=
  { name := draft.ad_name
    creative :=
      { primary_text := draft.primary_text
        headline := draft.headline
        description := draft.description
        cta := map_cta draft.cta
        image_url := draft.media_url } }

/-- What `FacebookService.create_campaign` hands to the Ad Platform: the
status parameters are the SDK constants `paused` on all three objects,
independent of the incoming dicts. -/
structure FbSubmission where
  campaign_name : String
  campaign_objective : String
  campaign_status : String
  adset_name : String
  adset_status : String
  ad_name : String
  ad_status : String
deriving Repr, DecidableEq

/-- A campaign-creation result dict. -/
structure CreateResult where
  success : Bool
  campaign_id : String := ""
  adset_id : String := ""
  ad_id : String := ""
  status : String := ""
  ads_manager_url : Option String := none
  is_mock : Bool := false
  is_real_data : Option Bool := none
  error : String := ""
  submission : Option FbSubmission := none
deriving Repr, DecidableEq

/-- `account_id.replace("act_", "")` for the one leading occurrence. -/
def dropActTag (s : String) : String :=
  if listStartsWith "act_".data s.data then ⟨s.data.drop 4⟩ else s

/-- `FacebookService._mock_create_campaign` (timestamp-derived ids). -/
def fb_mock_create_campaign (env : ExecEnv) (account_id : String) :
    CreateResult :=
  { success := true
    campaign_id := "camp_" ++ env.ts_id
    adset_id := "adset_" ++ env.ts_id
    ad_id := "ad_" ++ env.ts_id
    ads_manager_url := some
      ("https://www.facebook.com/adsmanager/manage/campaigns?act=" ++
        account_id ++ "&campaign_ids=camp_" ++ env.ts_id)
    status := "PAUSED"
    is_real_data := some false }

/-- `FacebookService.create_campaign`: mock when `_should_use_mock()`;
otherwise submit campaign, ad set and ad — each with status hardcoded
`paused` — and report `status = 'PAUSED'`; any SDK exception yields
`success = False` (`env.fb_ok` models the try block succeeding). -/
def fb_create_campaign (env : ExecEnv) (account_id page_id : String)
    (campaign_data : CampaignData) (adset_data : AdsetData)
    (ad_data : AdData) : CreateResult :=
  if env.fb_use_mock then fb_mock_create_campaign env account_id
  else if env.fb_ok then
    { success := true
      campaign_id := env.fb_campaign_id
      adset_id := env.fb_adset_id
      ad_id := env.fb_ad_id
      ads_manager_url := some
        ("https://www.facebook.com/adsmanager/manage/campaigns?act=" ++
          dropActTag account_id ++ "&campaign_ids=" ++ env.fb_campaign_id)
      status := "PAUSED"
      is_real_data := some true
      submission := some
        { campaign_name := campaign_data.name
          campaign_objective := campaign_data.objective
          campaign_status := "PAUSED"
          adset_name := adset_data.name
          adset_status := "PAUSED"
          ad_name := ad_data.name
          ad_status := "PAUSED" } }
  else { success := false, error := env.fb_error }

/-- `ExecutionAgent._mock_create_campaign`. -/
def mock_create_campaign (env : ExecEnv) (draft : PreviewDraft) :
    CreateResult :=
  { success := true
    campaign_id := "camp_" ++ env.uuid_campaign
    adset_id := "adset_" ++ env.uuid_adset
    ad_id := "ad_" ++ env.uuid_ad
    status := "PAUSED"
    ads_manager_url := some
      ("https://www.facebook.com/adsmanager/manage/campaigns?campaign_ids=camp_"
        ++ env.uuid_campaign)
    is_mock := true }

/-- `ExecutionAgent.create_campaign`. -/
def exec_create_campaign (agent : ExecutionAgent) (env : ExecEnv)
    (draft : PreviewDraft) (page_id : String) : CreateResult :=
  if !agent.has_access_token || !agent.has_ad_account then
    mock_create_campaign env draft
  else
    fb_create_campaign env agent.facebook_account_id page_id
      (prepare_campaign_data draft) (prepare_adset_data draft)
      (prepare_ad_data draft)

/-- An `ad_drafts` row (the columns the publish path reads or writes). -/
structure AdDraftRec where
  id : String
  user_id : String
  campaign_name : String := "New Campaign"
  ad_set_name : String := "New Ad Set"
  ad_name : String := "New Ad"
  primary_text : String := ""
  headline : String := ""
  description : String := ""
  cta : String := "learn_more"
  budget : Int := 50
  media_url : String := ""
  objective : String := "CONVERSIONS"
  status : String := "draft"
deriving Repr, DecidableEq

/-- `AdDraft.to_preview_dict` (restricted to the keys the execution agent
reads). -/
def to_preview_dict (r : AdDraftRec) : PreviewDraft :=
  { campaign_name := r.campaign_name
    ad_set_name := r.ad_set_name
    ad_name := r.ad_name
    primary_text := r.primary_text
    headline := r.headline
    description := r.description
    cta := r.cta
    budget := r.budget
    media_url := r.media_url
    objective := r.objective }

/-- A `facebook_pages` row (the columns the publish path reads). -/
structure FacebookPageRec where
  user_id : String
  facebook_page_id : String
  is_primary : Bool := false
deriving Repr, DecidableEq

/-- A `published_campaigns` row. -/
structure PublishedCampaignRec where
  id : String
  user_id : String
  ad_draft_id : String
  facebook_campaign_id : String
  facebook_adset_id : String := ""
  facebook_ad_id : String := ""
  ads_manager_url : Option String := none
  status : String := "active"
deriving Repr, DecidableEq

/-- The database state the publish tool queries and commits to. -/
structure DB where
  drafts : List AdDraftRec := []
  pages : List FacebookPageRec := []
  published : List PublishedCampaignRec := []
deriving Repr, DecidableEq

/-- `PublishCampaignTool`: its `user_id` plus the `ad_account`/
`access_token` it forwards to `ExecutionAgent`. -/
structure PublishCampaignTool where
  user_id : String
  agent : ExecutionAgent := {}
deriving Repr, DecidableEq

/-- The JSON payloads `PublishCampaignTool._run` can return. -/
inductive PublishOutcome where
  | requires_confirmation (message : String)
  | failure (message : String)
  | success (campaign_id : String) (ads_manager_url : Option String)
      (message : String)
deriving Repr, DecidableEq

/-- `true` exactly on the success payload. -/
def PublishOutcome.isSuccess : PublishOutcome → Bool
  | .success _ _ _ => true
  | _ => false

/-- `PublishCampaignTool._run`: result, database state after the call, and
the trace of underlying campaign-creation invocations.  The commit of the
`PublishedCampaign` row is modelled as succeeding. -/
def publish_campaign_run (tool : PublishCampaignTool) (env : ExecEnv)
    (db : DB) (draft_id : String) (confirm : Bool) :
    PublishOutcome × DB × List String :=
  if !confirm then
    (.requires_confirmation
      "Publishing requires user confirmation. Please confirm to proceed.",
     db, [])
  else
    match db.drafts.find?
        (fun r => r.id == draft_id && r.user_id == tool.user_id) with
    | none => (.failure "Draft not found", db, [])
    | some draft =>
      match db.pages.find?
          (fun p => p.user_id == tool.user_id && p.is_primary) with
      | none => (.failure "No Facebook page selected", db, [])
      | some page =>
        let result := exec_create_campaign tool.agent env
          (to_preview_dict draft) page.facebook_page_id
        let trace := ["executor.create_campaign"]
        if result.success then
          let published : PublishedCampaignRec :=
            { id := env.uuid_published
              user_id := tool.user_id
              ad_draft_id := draft.id
              facebook_campaign_id := result.campaign_id
              facebook_adset_id := result.adset_id
              facebook_ad_id := result.ad_id
              ads_manager_url := result.ads_manager_url
              status := "active" }
          let db' : DB :=
            { db with
              drafts := db.drafts.map (fun r =>
                if r.id == draft.id then { r with status := "published" }
                else r)
              published := db.published ++ [published] }
          (.success result.campaign_id result.ads_manager_url
            "Campaign published successfully!", db', trace)
        else (.failure result.error, db, trace)

/-! ## Claim theorems: publish gating and paused creation -/

/-- C1: without `confirm` the publish tool returns the
requires-confirmation payload, performs no campaign creation (empty trace)
and leaves the whole database — drafts, pages, published campaigns —
untouched; with `confirm` present and the draft and primary page found, it
invokes the underlying campaign creation, and on the mock path (no
Facebook service) it succeeds and records exactly one new
`PublishedCampaign`. -/
theorem C1_publish_confirmation_gate :
    (∀ (tool : PublishCampaignTool) (env : ExecEnv) (db : DB)
        (draft_id : String),
        publish_campaign_run tool env db draft_id false =
          (.requires_confirmation
            "Publishing requires user confirmation. Please confirm to proceed.",
           db, []))
  ∧ (∀ (tool : PublishCampaignTool) (env : ExecEnv) (db : DB)
        (draft_id : String) (draft : AdDraftRec) (page : FacebookPageRec),
        db.drafts.find?
            (fun r => r.id == draft_id && r.user_id == tool.user_id) =
          some draft →
        db.pages.find?
            (fun p => p.user_id == tool.user_id && p.is_primary) =
          some page →
        "executor.create_campaign" ∈
            (publish_campaign_run tool env db draft_id true).2.2
        ∧ (tool.agent.has_access_token = false →
            (publish_campaign_run tool env db draft_id true).1.isSuccess = true
            ∧ ((publish_campaign_run tool env db draft_id true).2.1).published.length
                = db.published.length + 1)) := by
  constructor
  · intro tool env db draft_id
    rfl
  · intro tool env db draft_id draft page hdraft hpage
    constructor
    · simp only [publish_campaign_run, Bool.not_true, Bool.false_eq_true,
        if_false, hdraft, hpage]
      split <;> simp
    · intro htok
      have hmock : exec_create_campaign tool.agent env (to_preview_dict draft)
          page.facebook_page_id =
          mock_create_campaign env (to_preview_dict draft) := by
        simp [exec_create_campaign, htok]
      simp [publish_campaign_run, hdraft, hpage, hmock,
        mock_create_campaign, PublishOutcome.isSuccess]

/-- The one-draft database used by the C1 witness. -/
def draftC1 : AdDraftRec := { id := "d1", user_id := "u1" }

/-- The primary page used by the C1 witness. -/
def pageC1 : FacebookPageRec :=
  { user_id := "u1", facebook_page_id := "pg1", is_primary := true }

/-- The database used by the C1 witness. -/
def dbC1 : DB := { drafts := [draftC1], pages := [pageC1] }

/-- Witness for C1 on a one-draft, one-page database with a serviceless
tool. -/
theorem C1_publish_confirmation_gate_witness :
    "executor.create_campaign" ∈
        (publish_campaign_run { user_id := "u1" } {} dbC1 "d1" true).2.2
    ∧ ((publish_campaign_run { user_id := "u1" } {} dbC1 "d1" true).1.isSuccess
          = true
        ∧ ((publish_campaign_run { user_id := "u1" } {} dbC1 "d1"
              true).2.1).published.length = dbC1.published.length + 1) :=
  ⟨(C1_publish_confirmation_gate.2 { user_id := "u1" } {} dbC1 "d1" draftC1
      pageC1 rfl rfl).1,
   (C1_publish_confirmation_gate.2 { user_id := "u1" } {} dbC1 "d1" draftC1
      pageC1 rfl rfl).2 rfl⟩

/-- C6: every campaign-creation path sets status `PAUSED` — the execution
agent prepares campaign and ad-set dicts with status `PAUSED`; its mock
result reports `PAUSED`; the Facebook service's mock reports `PAUSED`; the
real service submits campaign, ad set and ad to the Ad Platform each with
status `paused` regardless of the incoming dicts, and every successful
result reports status `PAUSED`, never an active status. -/
theorem C6_campaigns_created_paused :
    ∀ (agent : ExecutionAgent) (env : ExecEnv) (draft : PreviewDraft)
      (page_id account_id : String) (cd : CampaignData) (asd : AdsetData)
      (ad : AdData),
      (prepare_campaign_data draft).status = "PAUSED"
    ∧ (prepare_adset_data draft).status = "PAUSED"
    ∧ (mock_create_campaign env draft).status = "PAUSED"
    ∧ (fb_mock_create_campaign env account_id).status = "PAUSED"
    ∧ (∀ sub, (fb_create_campaign env account_id page_id cd asd ad).submission
          = some sub →
        sub.campaign_status = "PAUSED" ∧ sub.adset_status = "PAUSED" ∧
          sub.ad_status = "PAUSED")
    ∧ ((fb_create_campaign env account_id page_id cd asd ad).success = true →
        (fb_create_campaign env account_id page_id cd asd ad).status = "PAUSED")
    ∧ ((exec_create_campaign agent env draft page_id).success = true →
        (exec_create_campaign agent env draft page_id).status = "PAUSED") := by
  intro agent env draft page_id account_id cd asd ad
  cases hta : agent.has_access_token <;> cases haa : agent.has_ad_account <;>
    cases hum : env.fb_use_mock <;> cases hok : env.fb_ok <;>
    refine ⟨rfl, rfl, rfl, rfl, ?_, ?_, ?_⟩ <;>
    simp_all [fb_create_campaign, exec_create_campaign,
      fb_mock_create_campaign, mock_create_campaign]

/-- Witness for C6 on the real Facebook path with a succeeding platform
call, its actual submission, and the resulting `PAUSED` status. -/
theorem C6_campaigns_created_paused_witness :
    ((fb_create_campaign { fb_use_mock := false, fb_ok := true } "act_1" "pg"
        (prepare_campaign_data {}) (prepare_adset_data {})
        (prepare_ad_data {})).submission =
      some { campaign_name := "New Campaign"
             campaign_objective := "CONVERSIONS"
             campaign_status := "PAUSED"
             adset_name := "New Ad Set"
             adset_status := "PAUSED"
             ad_name := "New Ad"
             ad_status := "PAUSED" })
    ∧ ({ campaign_name := "New Campaign", campaign_objective := "CONVERSIONS",
         campaign_status := "PAUSED", adset_name := "New Ad Set",
         adset_status := "PAUSED", ad_name := "New Ad",
         ad_status := "PAUSED" } : FbSubmission).campaign_status = "PAUSED"
    ∧ (fb_create_campaign { fb_use_mock := false, fb_ok := true } "act_1" "pg"
        (prepare_campaign_data {}) (prepare_adset_data {})
        (prepare_ad_data {})).status = "PAUSED" :=
  ⟨rfl,
   ((C6_campaigns_created_paused {} { fb_use_mock := false, fb_ok := true }
      {} "pg" "act_1" (prepare_campaign_data {}) (prepare_adset_data {})
      (prepare_ad_data {})).2.2.2.2.1 _ rfl).1,
   (C6_campaigns_created_paused {} { fb_use_mock := false, fb_ok := true }
      {} "pg" "act_1" (prepare_campaign_data {}) (prepare_adset_data {})
      (prepare_ad_data {})).2.2.2.2.2.1 rfl⟩

/-! ## Memory retrieval service (`services/memory_service.py`) -/

/-- A Python JSON-ish value, for the heterogeneous context-bundle dicts. -/
inductive PyVal where
  | str (s : String)
  | int (n : Int)
  | bool (b : Bool)
  | vlist (xs : List PyVal)
  | dict (kvs : List (String × PyVal))
  | none

/-- Key membership in a Python dict. -/
def hasKey (d : List (String × PyVal)) (k : String) : Bool :=
  d.any (fun kv => kv.1 == k)

/-- The lookups and collaborator behaviour `_get_page_performance`
depends on. -/
structure PerfEnv where
  page_found : Bool := true
  ad_account_connected : Bool := true
  has_service : Bool := false
  stats_ok : Bool := false
  stats : List (String × PyVal) := []

/-- `MemoryRetrievalService._get_page_performance`: a failing stats call
(`stats_ok = false`) is caught and falls through to the placeholder; no
service means the placeholder directly. -/
def get_page_performance (env : PerfEnv) (days : Int) :
    List (String × PyVal) :=
  if !env.page_found then [("error", .str "Page not found")]
  else if !env.ad_account_connected then
    [("message", .str "No ad account connected")]
  else if env.has_service && env.stats_ok then env.stats
  else
    [("message", .str "Performance data not available"),
     ("period_days", .int days)]

/-- The sub-fetch results `get_context_for_chat` assembles for a
PAGE_WAR_ROOM conversation. -/
structure ChatCtxEnv where
  page_history : PyVal := .vlist []
  page_settings : PyVal := .dict []
  active_product : PyVal := .none
  page_products : PyVal := .vlist []
  perf : PerfEnv := {}

/-- `MemoryRetrievalService.get_context_for_chat`, PAGE_WAR_ROOM branch. -/
def get_context_for_chat_war_room (env : ChatCtxEnv) :
    List (String × PyVal) :=
  [("chat_type", .str "page_war_room"),
   ("page_history", env.page_history),
   ("page_settings", env.page_settings),
   ("active_product", env.active_product),
   ("page_products", env.page_products),
   ("page_performance", .dict (get_page_performance env.perf 7))]

/-- The environment of a failed performance fetch: page and ad account
present, no Facebook service available. -/
def ctxEnvFail : ChatCtxEnv :=
  { perf := { page_found := true, ad_account_connected := true,
              has_service := false, stats_ok := false } }

/-- C8 counterexample: when the performance fetch fails, the returned
bundle carries no `degraded` key at all — neither at top level nor inside
the performance placeholder — contradicting the claimed explicit
`degraded: true` marker. -/
theorem C8_no_degraded_marker :
    hasKey (get_context_for_chat_war_room ctxEnvFail) "degraded" = false
  ∧ hasKey (get_page_performance ctxEnvFail.perf 7) "degraded" = false
  ∧ hasKey (get_context_for_chat_war_room ctxEnvFail) "page_performance"
      = true := by
  refine ⟨rfl, rfl, rfl⟩

/-- C8 (amended): if the performance fetch fails, the full context bundle
is still returned, with the performance field a placeholder dict — but
with no `degraded` marker anywhere. -/
theorem C8_degraded_context_still_returned :
    ∀ (env : ChatCtxEnv),
      env.perf.page_found = true → env.perf.ad_account_connected = true →
      (env.perf.has_service = false ∨ env.perf.stats_ok = false) →
      get_context_for_chat_war_room env =
        [("chat_type", .str "page_war_room"),
         ("page_history", env.page_history),
         ("page_settings", env.page_settings),
         ("active_product", env.active_product),
         ("page_products", env.page_products),
         ("page_performance", .dict
            [("message", .str "Performance data not available"),
             ("period_days", .int 7)])]
      ∧ hasKey (get_context_for_chat_war_room env) "degraded" = false
      ∧ hasKey (get_page_performance env.perf 7) "degraded" = false := by
  intro env h1 h2 hfail
  have hcond : (env.perf.has_service && env.perf.stats_ok) = false := by
    rcases hfail with h | h <;> simp [h]
  refine ⟨?_, ?_, ?_⟩ <;>
    simp [get_context_for_chat_war_room, get_page_performance, hasKey,
      h1, h2, hcond]

/-- Witness for C8 at the concrete failed-fetch environment. -/
theorem C8_degraded_context_still_returned_witness :
    get_context_for_chat_war_room ctxEnvFail =
      [("chat_type", .str "page_war_room"),
       ("page_history", .vlist []),
       ("page_settings", .dict []),
       ("active_product", .none),
       ("page_products", .vlist []),
       ("page_performance", .dict
          [("message", .str "Performance data not available"),
           ("period_days", .int 7)])]
    ∧ hasKey (get_context_for_chat_war_room ctxEnvFail) "degraded" = false
    ∧ hasKey (get_page_performance ctxEnvFail.perf 7) "degraded" = false :=
  C8_degraded_context_still_returned ctxEnvFail rfl rfl (Or.inl rfl)

/-! ## Degraded chat behaviour
(`services/agent_service.py`, `agents/orchestrator.py`)

A streamed chat response is modelled as the list of yielded chunks; both
degraded paths yield character by character. -/

/-- The fixed configuration-error message of `AgentService.chat`. -/
def config_error_message (llm_error : Option String) : String :=
  "**Configuration Error**\n\nI'm unable to process your request because the AI service is not properly configured.\n\n**Error**: "
    ++ llm_error.getD "LLM not initialized" ++
  "\n\n**To fix this**, please ensure:\n1. `OPENAI_API_KEY` or `ANTHROPIC_API_KEY` is set in your `.env` file\n2. The API key is valid and has available credits\n3. `LLM_PROVIDER` is set to either 'openai' or 'anthropic'\n\nPlease check your configuration and try again."

/-- The state of an `AgentService` instance as `chat` sees it, plus the
opaque behaviour of the live path. -/
structure AgentChatEnv where
  llm_ok : Bool := false
  llm_error : Option String := Option.none
  live_output : List String := []

/-- `AgentService.chat`: with no LLM, the configuration-error message is
yielded character by character and the generator returns. -/
def agent_service_chat (env : AgentChatEnv) : List String :=
  if !env.llm_ok then
    (config_error_message env.llm_error).data.map (fun c => String.singleton c)
  else env.live_output

/-- `OrchestratorAgent._get_greeting_response`. -/
def greeting_response : String :=
  "Hello! I'm your Daily Ad Agent, ready to help you create and manage Facebook ads.\n\n**Today's Quick Stats** (if connected):\n- 3 active campaigns running\n- Top performer: \"Red Hoodie - Winter Sale\" (ROAS 4.2x)\n\n**How can I help you today?**\n1. Review your ad performance\n2. Create a new ad campaign\n3. Optimize existing campaigns\n4. Get recommendations\n\nJust tell me what you'd like to focus on!"

/-- `OrchestratorAgent._get_performance_response`. -/
def performance_response : String :=
  "**Performance Summary - Last 7 Days**\n\n| Metric | Value |\n|--------|-------|\n| Total Spend | $1,500 |\n| Impressions | 45,000 |\n| Clicks | 1,200 |\n| CTR | 2.67% |\n| Conversions | 45 |\n| ROAS | 3.2x |\n\n**Top Performer:**\n\"Red Hoodie - Winter Sale\"\n- ROAS: 4.2x\n- Spend: $500\n- Conversions: 25\n\n**Underperformer:**\n\"Old Collection - Generic\"\n- ROAS: 0.7x\n- Spend: $200\n- Conversions: 2\n\n**Recommendations:**\n1. Increase \"Red Hoodie\" budget by 30%\n2. Pause \"Old Collection - Generic\"\n\nWould you like me to apply any of these recommendations?"

/-- `OrchestratorAgent._get_create_ad_response`. -/
def create_ad_response : String :=
  "Great! Let's create a new ad campaign.\n\nI'll need a few details:\n\n1. **Product/Service**: What are you promoting?\n2. **Goal**: Sales, traffic, or brand awareness?\n3. **Target Audience**: Who should see this ad?\n4. **Budget**: Daily budget for this campaign?\n\nShare what you can, and I'll generate creative options for you!"

/-- `OrchestratorAgent._get_publish_response`. -/
def publish_response : String :=
  "Before I publish, let me confirm the details:\n\n**Campaign Summary**\n- Name: \"New Campaign\"\n- Objective: Conversions\n- Daily Budget: $50\n- Target: US, Ages 18-34\n\n**Ad Creative**\n- Primary Text: \"Your compelling ad copy here...\"\n- Headline: \"Your Headline\"\n- CTA: Shop Now\n\n**Safety Checks:**\n- Budget within normal range\n- No policy violations detected\n- Copy meets character limits\n\nReply **\"Yes\"** to confirm and publish."

/-- `OrchestratorAgent._get_confirmation_response`. -/
def confirmation_response : String :=
  "**Campaign Published Successfully!**\n\n- Campaign ID: camp_12345\n- Status: Active\n- [View in Ads Manager](https://facebook.com/adsmanager)\n\nI'll monitor performance and update you tomorrow.\n\nWhat else would you like to do?"

/-- `OrchestratorAgent._get_default_response`. -/
def default_response (message : String) : String :=
  "I understand you're asking about: \"" ++ message ++
  "\"\n\nHere's how I can help:\n- **\"Show my stats\"** - View performance data\n- **\"Create a new ad\"** - Start a new campaign\n- **\"Optimize my ads\"** - Get improvement recommendations\n- **\"Pause [campaign]\"** - Stop an underperformer\n\nWhat would you like to do?"

/-- `OrchestratorAgent._mock_response`: keyword-dispatched canned
responses. -/
def mock_response (message : String) : String :=
  let message_lower := strLower message
  if ["hello", "hi", "hey", "start"].any
      (fun w => strContains message_lower w) then greeting_response
  else if strContains message_lower "performance" ||
      strContains message_lower "stats" then performance_response
  else if strContains message_lower "create" ||
      strContains message_lower "new ad" then create_ad_response
  else if ["publish", "launch", "go ahead"].any
      (fun w => strContains message_lower w) then publish_response
  else if message_lower ∈ (["yes", "confirm", "approved"] : List String) then
    confirmation_response
  else default_response message

/-- The state of an `OrchestratorAgent` as `chat` sees it. -/
structure OrcChatEnv where
  llm_ok : Bool := false
  llm_output : List String := []

/-- `OrchestratorAgent.chat`: with no LLM it falls back to
`_mock_response`, yielded character by character. -/
def orchestrator_chat (env : OrcChatEnv) (message : String) : List String :=
  if !env.llm_ok then
    (mock_response message).data.map (fun c => String.singleton c)
  else env.llm_output

theorem foldl_append_singletons (acc : String) (cs : List Char) :
    List.foldl (· ++ ·) acc (cs.map String.singleton) = ⟨acc.data ++ cs⟩ := by
  induction cs generalizing acc with
  | nil => simp
  | cons c cs ih =>
    simp only [List.map_cons, List.foldl_cons, ih]
    have hd : (acc ++ String.singleton c).data = acc.data ++ [c] := by
      cases acc
      rfl
    rw [hd, List.append_assoc]
    rfl

/-- Joining a character-by-character stream recovers the message. -/
theorem join_char_stream (s : String) :
    String.join (s.data.map (fun c => String.singleton c)) = s := by
  show List.foldl (· ++ ·) "" (s.data.map String.singleton) = s
  rw [foldl_append_singletons]
  cases s
  rfl

/-- C9 counterexample: with the model unavailable, the orchestrator chat
entry point on "show my stats" does not stream the configuration-error
message; it streams a canned mock response carrying fabricated performance
figures ("ROAS"), and its output depends on the message, so it is not a
single fixed message. -/
theorem C9_orchestrator_mock_fallback :
    orchestrator_chat {} "show my stats" ≠
      (config_error_message Option.none).data.map (fun c => String.singleton c)
  ∧ strContains (mock_response "show my stats") "ROAS" = true
  ∧ orchestrator_chat {} "show my stats" ≠ orchestrator_chat {} "hello" := by
  refine ⟨by decide, by decide, by decide⟩

/-- C9 (amended): with the model unavailable, `AgentService.chat` — the
entry point the API layer serves — streams exactly the fixed
configuration-error message character by character and terminates, while
`OrchestratorAgent.chat` instead streams the keyword-dispatched mock
response. -/
theorem C9_degraded_mode :
    (∀ (env : AgentChatEnv), env.llm_ok = false →
        agent_service_chat env =
          (config_error_message env.llm_error).data.map
            (fun c => String.singleton c)
      ∧ String.join (agent_service_chat env) = config_error_message env.llm_error)
  ∧ (∀ (env : OrcChatEnv) (message : String), env.llm_ok = false →
        orchestrator_chat env message =
          (mock_response message).data.map (fun c => String.singleton c)) := by
  constructor
  · intro env h
    have he : agent_service_chat env =
        (config_error_message env.llm_error).data.map
          (fun c => String.singleton c) := by
      simp [agent_service_chat, h]
    exact ⟨he, by rw [he, join_char_stream]⟩
  · intro env message h
    simp [orchestrator_chat, h]

/-- Witness for C9 with no LLM configured and the message
"show my stats". -/
theorem C9_degraded_mode_witness :
    (agent_service_chat {} =
        (config_error_message Option.none).data.map (fun c => String.singleton c)
      ∧ String.join (agent_service_chat {}) = config_error_message Option.none)
    ∧ orchestrator_chat {} "show my stats" =
        (mock_response "show my stats").data.map (fun c => String.singleton c) :=
  ⟨C9_degraded_mode.1 {} rfl, C9_degraded_mode.2 {} "show my stats" rfl⟩

end DailyAd

